import Mathlib

/-!
Shallow embedding of the `llm-test` chat relay.

Backend (`src/index.ts`): a request router, an HTTP chat handler
(`handleChatRequest`) and a WebSocket handler (`handleWebSocket`).
Client (`public/chat.js`): the browser session state, `sendMessage`,
and the socket `message` listener.

JavaScript values that flow through the handlers are modelled by the
`Json` type below; JavaScript property access (which throws a
`TypeError` on `null`, yields `undefined` on primitives and yields the
field on objects) is modelled by `getProp` returning
`Except Unit (Option Json)` where `none` stands for `undefined` and
`Except.error` for a thrown exception.  A JSON parse that throws is
modelled as an `Except.error` input to the handler.
-/

/-- A JavaScript/JSON value as it appears in the handlers. -/
inductive Json where
  | str (s : String)
  | num (n : Int)
  | bool (b : Bool)
  | null
  | arr (elems : List Json)
  | obj (fields : List (String × Json))

/-- First-match field lookup in a JavaScript object (parsed JSON objects
have unique keys, so first match is the field). -/
def lookupField : List (String × Json) → String → Option Json
  | [], _ => none
  | (k, v) :: fs, key => if k = key then some v else lookupField fs key

/-- JavaScript property read `x[k]`: throws on `null`, returns the field
(or `undefined`, i.e. `none`) on objects, `undefined` on other values. -/
def getProp : Json → String → Except Unit (Option Json)
  | .null, _ => .error ()
  | .obj fs, k => .ok (lookupField fs k)
  | _, _ => .ok none

/-- `src/index.ts`: the configured Workers AI model identifier. -/
def MODEL_ID : String := "@cf/meta/llama-3.3-70b-instruct-fp8-fast"

/-- `src/index.ts`: the default system prompt. -/
def SYSTEM_PROMPT : String :=
  "You are a helpful, friendly assistant. Provide concise and accurate responses."

/-- The default system message that `messages.unshift(...)` prepends. -/
def systemMessageJson : Json :=
  .obj [("role", .str "system"), ("content", .str SYSTEM_PROMPT)]

/-- A well-formed chat message (the shape the client actually sends). -/
structure ChatMessage where
  role : String
  content : String
deriving Repr, DecidableEq

/-- The JSON object carrying a well-formed chat message. -/
def ChatMessage.toJson (m : ChatMessage) : Json :=
  .obj [("role", .str m.role), ("content", .str m.content)]

/-- A request body `{ messages: [...] }` made of well-formed messages. -/
def messagesBody (msgs : List ChatMessage) : Json :=
  .obj [("messages", .arr (msgs.map ChatMessage.toJson))]

/-! ## Request router (`fetch` in `src/index.ts`) -/

/-- JavaScript `s.startsWith(pre)`, as a character-list test. -/
def jsStartsWith (s pre : String) : Bool :=
  List.isPrefixOf pre.data s.data

/-- JavaScript `s.trim()`: strip leading and trailing whitespace. -/
def jsTrim (s : String) : String :=
  String.mk (((s.data.dropWhile Char.isWhitespace).reverse.dropWhile Char.isWhitespace).reverse)

/-- Where the router sends a request. -/
inductive RouteResult where
  | websocket
  | asset
  | chat
  | methodNotAllowed
  | notFound
deriving Repr, DecidableEq

/-- `fetch` in `src/index.ts`: path `/ws` goes to the WebSocket handler;
`/` or any path not starting with `/api/` goes to `env.ASSETS.fetch`;
`/api/chat` goes to `handleChatRequest` on POST and is answered 405
otherwise; any remaining path is answered 404. -/
def route (pathname method : String) : RouteResult :=
  if pathname = "/ws" then .websocket
  else if pathname = "/" ∨ ¬ jsStartsWith pathname "/api/" then .asset
  else if pathname = "/api/chat" then
    (if method = "POST" then .chat else .methodNotAllowed)
  else .notFound

/-- The status code the router itself answers with, when it does not
delegate to another handler. -/
def routeStatus : RouteResult → Option Nat
  | .methodNotAllowed => some 405
  | .notFound => some 404
  | _ => none

/-! ## WebSocket upgrade (`handleWebSocket` in `src/index.ts`) -/

/-- Observable outcome of `handleWebSocket`'s upgrade phase. -/
structure WsUpgradeResponse where
  status : Nat
  pairCreated : Bool
  clientAttached : Bool
deriving Repr, DecidableEq

/-- `handleWebSocket`, upgrade phase: if the `Upgrade` header is not
exactly `websocket` respond 426 before any `WebSocketPair` is built;
otherwise build the pair, accept the server end and respond 101 with
the client end attached. -/
def handleWebSocketUpgrade (upgradeHeader : Option String) : WsUpgradeResponse :=
  if upgradeHeader = some "websocket" then
    { status := 101, pairCreated := true, clientAttached := true }
  else
    { status := 426, pairCreated := false, clientAttached := false }

/-! ## Shared message-list processing

Both handlers run the same three steps on a parsed body:
`const { messages = [] } = body` (destructuring with an array default),
`messages.some((msg) => msg.role === "system")` (which throws when
`messages` is not an array, and when an element is `null`), and the
conditional `messages.unshift({ role: "system", content: SYSTEM_PROMPT })`.
-/

/-- `const \x7b messages = [] \x7d = body`: throws on a `null` body, takes the
`messages` field when present, defaults to the empty array literal when
the field is `undefined`. -/
def destructureMessages (body : Json) : Except Unit Json := do
  match ← getProp body "messages" with
  | none => pure (.arr [])
  | some v => pure v

/-- `msg.role === "system"` once `msg.role` has been read. -/
def isSystemRole : Option Json → Bool
  | some (.str s) => s == "system"
  | _ => false

/-- `messages.some((msg) => msg.role === "system")`: left-to-right with
short circuit; reading `.role` of a `null` element throws. -/
def hasSystemRole : List Json → Except Unit Bool
  | [] => pure false
  | m :: ms => do
    let r ← getProp m "role"
    if isSystemRole r then pure true else hasSystemRole ms

/-- The `if (!messages.some(...)) messages.unshift(...)` step.  Calling
`.some` on a non-array `messages` value throws a `TypeError`. -/
def ensureSystem : Json → Except Unit (List Json)
  | .arr msgs => do
    let has ← hasSystemRole msgs
    pure (if has then msgs else systemMessageJson :: msgs)
  | _ => .error ()

/-! ## HTTP chat handler (`handleChatRequest` in `src/index.ts`) -/

/-- Observable outcome of `handleChatRequest`: on success the raw
streaming response from `env.AI.run` is returned as the HTTP response
together with the forwarded message list; any exception is caught and
answered 500 with `\x7b "error": "Failed to process request" \x7d`. -/
inductive ChatResult (α : Type) where
  | ok (forwarded : List Json) (resp : α)
  | serverError

/-- `handleChatRequest`: parse the body (`parsedBody` is the outcome of
`await request.json()`, `Except.error` when it threw), destructure
`messages`, prepend the system prompt if missing, and call `env.AI.run`
(modelled by `ai`, also fallible) with the resulting list; every thrown
exception lands in the catch block. -/
def handleChatRequest {α : Type} (parsedBody : Except Unit Json)
    (ai : List Json → Except Unit α) : ChatResult α :=
  match (do
    let body ← parsedBody
    let mv ← destructureMessages body
    let msgs ← ensureSystem mv
    let resp ← ai msgs
    pure (msgs, resp) : Except Unit (List Json × α)) with
  | .ok (msgs, resp) => .ok msgs resp
  | .error _ => .serverError

/-! ## WebSocket message handler (`handleWebSocket` in `src/index.ts`) -/

/-- The fallback reply text. -/
def noResponseText : String := "[No response]"

/-- The apology text sent from the WebSocket catch block. -/
def wsApologyText : String := "Sorry, there was an error processing your request."

/-- The frame `\x7b response: text \x7d` sent back over the socket. -/
def responseFrame (text : String) : Json := .obj [("response", .str text)]

/-- The reply-text extraction over `aiResponse`: a string is used as is;
otherwise, for a truthy object, a string-valued `response` field wins,
then a string-valued `result` field; anything else (including `null`,
numbers, booleans, arrays, and objects whose `response`/`result` fields
are missing or not strings) falls back to `"[No response]"`. -/
def extractText : Json → String
  | .str s => s
  | .obj fs =>
    match lookupField fs "response" with
    | some (.str s) => s
    | _ =>
      match lookupField fs "result" with
      | some (.str s) => s
      | _ => noResponseText
  | _ => noResponseText

/-- The message-list pipeline of the socket `message` listener: `parsed`
is the outcome of `JSON.parse` on the (UTF-8 decoded) frame data,
`Except.error` when the parse threw. -/
def wsMessages (parsed : Except Unit Json) : Except Unit (List Json) := do
  let body ← parsed
  let mv ← destructureMessages body
  ensureSystem mv

/-- The whole try block of the socket `message` listener: run the
pipeline, call `env.AI.run` (non-streaming), and build the reply frame. -/
def wsProcess (parsed : Except Unit Json)
    (ai : List Json → Except Unit Json) : Except Unit Json := do
  let msgs ← wsMessages parsed
  let resp ← ai msgs
  pure (responseFrame (extractText resp))

/-- The socket `message` listener: any exception in the try block is
caught and answered with the apology frame; the listener never closes
the socket. -/
def wsOnMessage (parsed : Except Unit Json)
    (ai : List Json → Except Unit Json) : Json :=
  match wsProcess parsed ai with
  | .ok frame => frame
  | .error _ => responseFrame wsApologyText

/-- A socket's lifetime: each inbound message is handled independently
by `wsOnMessage`; the Boolean records whether the server side ever
closed the socket (it has no `close` call, so it never does). -/
def wsSession (inputs : List (Except Unit Json))
    (ai : List Json → Except Unit Json) : List Json × Bool :=
  match inputs with
  | [] => ([], false)
  | e :: es => (wsOnMessage e ai :: (wsSession es ai).1, (wsSession es ai).2)

/-! ## Client session (`public/chat.js`) -/

/-- An entry of the client's `chatHistory` array: the `content` pushed on
the receive path is `data.response` verbatim, so it is a `Json` value. -/
structure HistMsg where
  role : String
  content : Json

/-- How a history entry is serialized inside the outbound frame. -/
def histToJson (m : HistMsg) : Json :=
  .obj [("role", .str m.role), ("content", m.content)]

/-- The initial assistant greeting in `chatHistory`. -/
def greetingText : String :=
  "Hello! I'm an LLM chat app powered by Cloudflare Workers AI. How can I help you today?"

/-- The greeting entry at index 0 of the initial `chatHistory`. -/
def greetingMsg : HistMsg := { role := "assistant", content := .str greetingText }

/-- The whole mutable state of `chat.js`: the rendered bubbles
(`addMessageToChat` appends a role-classed element), `chatHistory`,
the `isProcessing` and `socketReady` flags, the input field's value and
the disabled flags of the input and the send button, and the typing
indicator's visibility. -/
structure ClientState where
  chatLog : List (String × Json)
  chatHistory : List HistMsg
  isProcessing : Bool
  socketReady : Bool
  inputValue : String
  inputDisabled : Bool
  sendDisabled : Bool
  typingVisible : Bool

/-- The state right after the script loads: greeting-only history,
nothing in flight, socket not yet open. -/
def initialClientState : ClientState :=
  { chatLog := [], chatHistory := [greetingMsg], isProcessing := false,
    socketReady := false, inputValue := "", inputDisabled := false,
    sendDisabled := false, typingVisible := false }

/-- JavaScript truthiness of the values `data.response` can hold. -/
def truthy : Json → Bool
  | .str s => s != ""
  | .num n => n != 0
  | .bool b => b
  | .null => false
  | .arr _ => true
  | .obj _ => true

/-- The socket `message` listener in `chat.js`: parse the frame
(`data` is the `JSON.parse` outcome, `Except.error` when it threw),
and `if (data.response)` append the value to the visible log and to
`chatHistory`; reading `.response` of a `null` payload throws into the
catch, which only logs.  After the try/catch the typing indicator is
hidden, `isProcessing` is cleared and both controls are re-enabled,
unconditionally. -/
def onSocketMessage (data : Except Unit Json) (st : ClientState) : ClientState :=
  let st1 :=
    match (do
      let d ← data
      getProp d "response" : Except Unit (Option Json)) with
    | .ok (some v) =>
      if truthy v then
        { st with chatLog := st.chatLog ++ [("assistant", v)],
                  chatHistory := st.chatHistory ++ [{ role := "assistant", content := v : HistMsg }] }
      else st
    | _ => st
  { st1 with typingVisible := false, isProcessing := false,
             inputDisabled := false, sendDisabled := false }

/-- The outbound frame `JSON.stringify(\x7b messages: chatHistory \x7d)`. -/
def outboundFrame (history : List HistMsg) : Json :=
  .obj [("messages", .arr (history.map histToJson))]

/-- `sendMessage` in `chat.js`.  Guard: no-op when the trimmed input is
empty, a send is already in flight, or the socket is not ready.
Otherwise: set `isProcessing`, disable both controls, render the user
bubble, clear the input, show the typing indicator, push the user turn
onto `chatHistory`, and `socket.send` the whole history
(`sendSucceeds = false` models that synchronous call throwing: the
frame is not transmitted, an apology bubble is rendered locally — not
pushed to history — and the indicator and controls are reset).
Returns the new state and the frames transmitted by this call. -/
def sendMessage (sendSucceeds : Bool) (st : ClientState) : ClientState × List Json :=
  let message := jsTrim st.inputValue
  if message = "" ∨ st.isProcessing = true ∨ st.socketReady = false then (st, [])
  else
    let st1 := { st with
      isProcessing := true, inputDisabled := true, sendDisabled := true,
      chatLog := st.chatLog ++ [("user", .str message)],
      inputValue := "", typingVisible := true,
      chatHistory := st.chatHistory ++ [{ role := "user", content := .str message : HistMsg }] }
    if sendSucceeds then
      (st1, [outboundFrame st1.chatHistory])
    else
      ({ st1 with
          chatLog := st1.chatLog ++ [("assistant", .str wsApologyText)],
          typingVisible := false, isProcessing := false,
          inputDisabled := false, sendDisabled := false }, [])

/-- The events that can hit the client state machine. -/
inductive ClientEvent where
  | socketOpen
  | socketClose
  | setInput (s : String)
  | send (sendSucceeds : Bool)
  | recv (data : Except Unit Json)

/-- One client event: the `open`/`close` listeners toggle `socketReady`
(the `close` listener also schedules a reconnect, which carries no
state), typing replaces the input value, and the send and receive paths
are `sendMessage` and `onSocketMessage`. -/
def clientStep : ClientEvent → ClientState → ClientState × List Json
  | .socketOpen, st => ({ st with socketReady := true }, [])
  | .socketClose, st => ({ st with socketReady := false }, [])
  | .setInput s, st => ({ st with inputValue := s }, [])
  | .send ok, st => sendMessage ok st
  | .recv d, st => (onSocketMessage d st, [])

/-- Run a list of events from a given state, collecting every frame the
client transmits. -/
def clientRunFrom (st : ClientState) : List ClientEvent → ClientState × List Json
  | [] => (st, [])
  | e :: es =>
    ((clientRunFrom (clientStep e st).1 es).1,
     (clientStep e st).2 ++ (clientRunFrom (clientStep e st).1 es).2)

/-- Run a list of events from the initial client state. -/
def clientRun (events : List ClientEvent) : ClientState × List Json :=
  clientRunFrom initialClientState events

/-- The shape `chatHistory` is claimed to keep: non-empty, the greeting
at index 0, and no system-role entry. -/
def historyWellFormed (h : List HistMsg) : Prop :=
  h ≠ [] ∧ h.head? = some greetingMsg ∧ ∀ m ∈ h, m.role ≠ "system"

/-! ## Basic lemmas about the embedding -/

theorem except_ok_bind {α β : Type} (a : α) (f : α → Except Unit β) :
    (Except.ok a >>= f : Except Unit β) = f a := rfl

theorem except_error_bind {α β : Type} (f : α → Except Unit β) :
    (Except.error () >>= f : Except Unit β) = Except.error () := rfl

theorem getProp_toJson_role (m : ChatMessage) :
    getProp (ChatMessage.toJson m) "role" = Except.ok (some (Json.str m.role)) := rfl

/-- On a list of well-formed messages, the `messages.some` probe never
throws and computes the Boolean `any` of `role === "system"`. -/
theorem hasSystemRole_map_toJson (msgs : List ChatMessage) :
    hasSystemRole (msgs.map ChatMessage.toJson)
      = Except.ok (msgs.any fun m => m.role == "system") := by
  induction msgs with
  | nil => rfl
  | cons m ms ih =>
    show (getProp (ChatMessage.toJson m) "role" >>= fun r =>
      if isSystemRole r then pure true else hasSystemRole (ms.map ChatMessage.toJson))
      = Except.ok ((m :: ms).any fun m => m.role == "system")
    rw [getProp_toJson_role, except_ok_bind]
    show (if (m.role == "system") = true then Except.ok true
      else hasSystemRole (ms.map ChatMessage.toJson)) = _
    by_cases h : m.role = "system"
    · simp [h]
    · simp [h, ih]

/-- `ensureSystem` on a well-formed list: prepend exactly when no entry
has role `system`. -/
theorem ensureSystem_map_toJson (msgs : List ChatMessage) :
    ensureSystem (.arr (msgs.map ChatMessage.toJson))
      = Except.ok (if msgs.any (fun m => m.role == "system")
          then msgs.map ChatMessage.toJson
          else systemMessageJson :: msgs.map ChatMessage.toJson) := by
  show (hasSystemRole (msgs.map ChatMessage.toJson) >>= fun has =>
      pure (if has then msgs.map ChatMessage.toJson
        else systemMessageJson :: msgs.map ChatMessage.toJson)) = _
  rw [hasSystemRole_map_toJson, except_ok_bind]
  rfl

theorem destructureMessages_messagesBody (msgs : List ChatMessage) :
    destructureMessages (messagesBody msgs)
      = Except.ok (.arr (msgs.map ChatMessage.toJson)) := rfl

/-- `handleChatRequest` on a well-formed body: the forwarded list is the
`ensureSystem` output, and the outcome is decided by the `env.AI.run`
call on it. -/
theorem handleChatRequest_messagesBody {α : Type} (msgs : List ChatMessage)
    (ai : List Json → Except Unit α) (l : List Json)
    (hl : ensureSystem (.arr (msgs.map ChatMessage.toJson)) = Except.ok l) :
    handleChatRequest (.ok (messagesBody msgs)) ai
      = match ai l with
        | .ok r => ChatResult.ok l r
        | .error _ => ChatResult.serverError := by
  show (match (Except.ok (messagesBody msgs) >>= fun body =>
      destructureMessages body >>= fun mv =>
      ensureSystem mv >>= fun msgs' =>
      ai msgs' >>= fun resp =>
      pure (msgs', resp) : Except Unit (List Json × α)) with
    | .ok (msgs', resp) => ChatResult.ok msgs' resp
    | .error _ => ChatResult.serverError) = _
  rw [except_ok_bind, destructureMessages_messagesBody, except_ok_bind, hl,
    except_ok_bind]
  cases h : ai l with
  | ok r => rw [except_ok_bind]; rfl
  | error e => rfl

/-- Same decomposition for the WebSocket pipeline. -/
theorem wsMessages_messagesBody (msgs : List ChatMessage) :
    wsMessages (.ok (messagesBody msgs))
      = ensureSystem (.arr (msgs.map ChatMessage.toJson)) := by
  show (Except.ok (messagesBody msgs) >>= fun body =>
      destructureMessages body >>= fun mv => ensureSystem mv) = _
  rw [except_ok_bind, destructureMessages_messagesBody, except_ok_bind]

/-- `wsOnMessage` once the pipeline value and the model reply are known. -/
theorem wsOnMessage_of_ok (parsed : Except Unit Json)
    (ai : List Json → Except Unit Json) (l : List Json) (r : Json)
    (hl : wsMessages parsed = Except.ok l) (hr : ai l = Except.ok r) :
    wsOnMessage parsed ai = responseFrame (extractText r) := by
  show (match (wsMessages parsed >>= fun msgs =>
      ai msgs >>= fun resp =>
      pure (responseFrame (extractText resp)) : Except Unit Json) with
    | .ok frame => frame
    | .error _ => responseFrame wsApologyText) = _
  rw [hl, except_ok_bind, hr, except_ok_bind]
  rfl

/-! ## Claim theorems -/

theorem route_api_chat (method : String) :
    route "/api/chat" method
      = if method = "POST" then RouteResult.chat else RouteResult.methodNotAllowed := by
  unfold route
  rw [if_neg (by decide), if_neg (by decide), if_pos rfl]

/-- C8: a request to `/ws` whose `Upgrade` header is not exactly
`websocket` is answered 426 and no `WebSocketPair` is created; with
`Upgrade: websocket` the response is 101 with the client end attached. -/
theorem C8_upgrade_required (h : Option String) :
    (h ≠ some "websocket" →
      handleWebSocketUpgrade h
        = { status := 426, pairCreated := false, clientAttached := false })
    ∧ handleWebSocketUpgrade (some "websocket")
        = { status := 101, pairCreated := true, clientAttached := true } := by
  refine ⟨fun hne => ?_, rfl⟩
  unfold handleWebSocketUpgrade
  rw [if_neg hne]

/-- Witness for C8 at the concrete header values `none` (header absent)
and `some "websocket"`. -/
theorem C8_upgrade_required_witness :
    handleWebSocketUpgrade none
      = { status := 426, pairCreated := false, clientAttached := false }
    ∧ handleWebSocketUpgrade (some "websocket")
      = { status := 101, pairCreated := true, clientAttached := true } :=
  ⟨(C8_upgrade_required none).1 (by decide), (C8_upgrade_required (some "websocket")).2⟩

/-- C3 counterexample: a GET on `/unknown` is not answered 404 by the
router; since `/unknown` does not start with `/api/`, the router
delegates it to the static asset store. -/
theorem C3_counterexample :
    route "/unknown" "GET" = RouteResult.asset
    ∧ routeStatus (route "/unknown" "GET") ≠ some 404 := by
  exact ⟨by decide, by decide⟩

/-- C3 (amended): the router answers 405 to any non-POST method on
`/api/chat` and 404 to an unmatched `/api/`-prefixed path such as
`/api/unknown`; a non-API path such as `/unknown` is delegated to the
static asset store rather than answered 404 by the router. -/
theorem C3_router_statuses (method : String) :
    (method ≠ "POST" →
      route "/api/chat" method = RouteResult.methodNotAllowed
      ∧ routeStatus (route "/api/chat" method) = some 405)
    ∧ route "/api/unknown" "GET" = RouteResult.notFound
    ∧ routeStatus (route "/api/unknown" "GET") = some 404
    ∧ route "/unknown" "GET" = RouteResult.asset
    ∧ route "/api/chat" "POST" = RouteResult.chat := by
  refine ⟨fun hm => ?_, by decide, by decide, by decide, ?_⟩
  · rw [route_api_chat, if_neg hm]
    exact ⟨rfl, rfl⟩
  · rw [route_api_chat, if_pos rfl]

/-- Witness for C3 (amended) at the concrete method `GET`. -/
theorem C3_router_statuses_witness :
    (route "/api/chat" "GET" = RouteResult.methodNotAllowed
      ∧ routeStatus (route "/api/chat" "GET") = some 405)
    ∧ route "/api/unknown" "GET" = RouteResult.notFound
    ∧ routeStatus (route "/api/unknown" "GET") = some 404
    ∧ route "/unknown" "GET" = RouteResult.asset
    ∧ route "/api/chat" "POST" = RouteResult.chat :=
  ⟨(C3_router_statuses "GET").1 (by decide), (C3_router_statuses "GET").2⟩

theorem wsSession_eq_map (es : List (Except Unit Json))
    (ai : List Json → Except Unit Json) :
    wsSession es ai = (es.map fun e => wsOnMessage e ai, false) := by
  induction es with
  | nil => rfl
  | cons e es ih => simp [wsSession, ih]

theorem wsOnMessage_of_error (e : Except Unit Json)
    (ai : List Json → Except Unit Json) (he : wsProcess e ai = Except.error ()) :
    wsOnMessage e ai = responseFrame wsApologyText := by
  unfold wsOnMessage
  rw [he]

/-- C1: on both the HTTP chat path and the WebSocket path, a message
list with no system-role entry gets exactly one default system message
prepended at index 0 with the remaining entries in unchanged order,
and a list that already contains a system-role entry anywhere is
forwarded to the inference call unmodified. -/
theorem C1_system_prompt {α : Type} (msgs : List ChatMessage)
    (aiH : List Json → Except Unit α) (aiW : List Json → Except Unit Json) :
    ((∀ m ∈ msgs, m.role ≠ "system") →
      (∀ r, aiH (systemMessageJson :: msgs.map ChatMessage.toJson) = Except.ok r →
        handleChatRequest (.ok (messagesBody msgs)) aiH
          = ChatResult.ok (systemMessageJson :: msgs.map ChatMessage.toJson) r)
      ∧ (∀ r, aiW (systemMessageJson :: msgs.map ChatMessage.toJson) = Except.ok r →
        wsOnMessage (.ok (messagesBody msgs)) aiW = responseFrame (extractText r)))
    ∧ ((∃ m ∈ msgs, m.role = "system") →
      (∀ r, aiH (msgs.map ChatMessage.toJson) = Except.ok r →
        handleChatRequest (.ok (messagesBody msgs)) aiH
          = ChatResult.ok (msgs.map ChatMessage.toJson) r)
      ∧ (∀ r, aiW (msgs.map ChatMessage.toJson) = Except.ok r →
        wsOnMessage (.ok (messagesBody msgs)) aiW = responseFrame (extractText r))) := by
  constructor
  · intro h
    have hfalse : (msgs.any fun m => m.role == "system") = false := by
      by_contra hc
      rw [Bool.not_eq_false, List.any_eq_true] at hc
      obtain ⟨m, hm, hr⟩ := hc
      exact h m hm (by simpa using hr)
    have hens : ensureSystem (.arr (msgs.map ChatMessage.toJson))
        = Except.ok (systemMessageJson :: msgs.map ChatMessage.toJson) := by
      rw [ensureSystem_map_toJson, hfalse]
      rfl
    constructor
    · intro r hr
      rw [handleChatRequest_messagesBody msgs aiH _ hens, hr]
    · intro r hr
      exact wsOnMessage_of_ok _ aiW _ r (by rw [wsMessages_messagesBody, hens]) hr
  · intro h
    have htrue : (msgs.any fun m => m.role == "system") = true := by
      obtain ⟨m, hm, hr⟩ := h
      exact List.any_eq_true.mpr ⟨m, hm, by simpa using hr⟩
    have hens : ensureSystem (.arr (msgs.map ChatMessage.toJson))
        = Except.ok (msgs.map ChatMessage.toJson) := by
      rw [ensureSystem_map_toJson, htrue]
      rfl
    constructor
    · intro r hr
      rw [handleChatRequest_messagesBody msgs aiH _ hens, hr]
    · intro r hr
      exact wsOnMessage_of_ok _ aiW _ r (by rw [wsMessages_messagesBody, hens]) hr

/-- Witness for C1: a system-free list gets the prepend on both paths,
a list with a system entry is forwarded unchanged. -/
theorem C1_system_prompt_witness :
    handleChatRequest (.ok (messagesBody [⟨"user", "hi"⟩]))
        (fun _ => Except.ok (Json.str "h"))
      = ChatResult.ok [systemMessageJson, ChatMessage.toJson ⟨"user", "hi"⟩]
          (Json.str "h")
    ∧ wsOnMessage (.ok (messagesBody [⟨"user", "hi"⟩]))
        (fun _ => Except.ok (Json.str "h"))
      = responseFrame "h"
    ∧ handleChatRequest (.ok (messagesBody [⟨"system", "s"⟩, ⟨"user", "hi"⟩]))
        (fun _ => Except.ok (Json.str "h"))
      = ChatResult.ok
          [ChatMessage.toJson ⟨"system", "s"⟩, ChatMessage.toJson ⟨"user", "hi"⟩]
          (Json.str "h") :=
  ⟨((C1_system_prompt [⟨"user", "hi"⟩] (fun _ => Except.ok (Json.str "h"))
      (fun _ => Except.ok (Json.str "h"))).1 (by decide)).1 (Json.str "h") rfl,
   ((C1_system_prompt [⟨"user", "hi"⟩] (fun _ => Except.ok (Json.str "h"))
      (fun _ => Except.ok (Json.str "h"))).1 (by decide)).2 (Json.str "h") rfl,
   ((C1_system_prompt [⟨"system", "s"⟩, ⟨"user", "hi"⟩]
      (fun _ => Except.ok (Json.str "h"))
      (fun _ => Except.ok (Json.str "h"))).2 (by decide)).1 (Json.str "h") rfl⟩

/-- C4: on the WebSocket path the reply frame is the JSON object with
the extracted text under `response`, and extraction follows exactly the
precedence raw string, then string-valued `response` field, then
string-valued `result` field, then the `"[No response]"` placeholder. -/
theorem C4_reply_extraction (parsed : Except Unit Json)
    (ai : List Json → Except Unit Json) (l : List Json) (r : Json) :
    (wsMessages parsed = Except.ok l → ai l = Except.ok r →
      wsOnMessage parsed ai = responseFrame (extractText r))
    ∧ (∀ s, extractText (.str s) = s)
    ∧ (∀ fs s, lookupField fs "response" = some (.str s) →
        extractText (.obj fs) = s)
    ∧ (∀ fs s, (∀ s', lookupField fs "response" ≠ some (.str s')) →
        lookupField fs "result" = some (.str s) → extractText (.obj fs) = s)
    ∧ (∀ fs, (∀ s', lookupField fs "response" ≠ some (.str s')) →
        (∀ s', lookupField fs "result" ≠ some (.str s')) →
        extractText (.obj fs) = noResponseText)
    ∧ (∀ n, extractText (.num n) = noResponseText)
    ∧ (∀ b, extractText (.bool b) = noResponseText)
    ∧ extractText .null = noResponseText
    ∧ (∀ xs, extractText (.arr xs) = noResponseText) := by
  refine ⟨wsOnMessage_of_ok parsed ai l r, fun s => rfl, ?_, ?_, ?_,
    fun n => rfl, fun b => rfl, rfl, fun xs => rfl⟩
  · intro fs s h
    simp only [extractText, h]
  · intro fs s hnr hres
    cases hx : lookupField fs "response" with
    | none => simp only [extractText, hx, hres]
    | some v =>
      cases v with
      | str s' => exact absurd hx (hnr s')
      | num n => simp only [extractText, hx, hres]
      | bool b => simp only [extractText, hx, hres]
      | null => simp only [extractText, hx, hres]
      | arr xs => simp only [extractText, hx, hres]
      | obj gs => simp only [extractText, hx, hres]
  · intro fs hnr hns
    cases hx : lookupField fs "response" with
    | none =>
      cases hy : lookupField fs "result" with
      | none => simp only [extractText, hx, hy]
      | some w =>
        cases w with
        | str s' => exact absurd hy (hns s')
        | num n => simp only [extractText, hx, hy]
        | bool b => simp only [extractText, hx, hy]
        | null => simp only [extractText, hx, hy]
        | arr xs => simp only [extractText, hx, hy]
        | obj gs => simp only [extractText, hx, hy]
    | some v =>
      cases v with
      | str s' => exact absurd hx (hnr s')
      | num n =>
        cases hy : lookupField fs "result" with
        | none => simp only [extractText, hx, hy]
        | some w =>
          cases w with
          | str s' => exact absurd hy (hns s')
          | num n' => simp only [extractText, hx, hy]
          | bool b => simp only [extractText, hx, hy]
          | null => simp only [extractText, hx, hy]
          | arr xs => simp only [extractText, hx, hy]
          | obj gs => simp only [extractText, hx, hy]
      | bool b =>
        cases hy : lookupField fs "result" with
        | none => simp only [extractText, hx, hy]
        | some w =>
          cases w with
          | str s' => exact absurd hy (hns s')
          | num n' => simp only [extractText, hx, hy]
          | bool b' => simp only [extractText, hx, hy]
          | null => simp only [extractText, hx, hy]
          | arr xs => simp only [extractText, hx, hy]
          | obj gs => simp only [extractText, hx, hy]
      | null =>
        cases hy : lookupField fs "result" with
        | none => simp only [extractText, hx, hy]
        | some w =>
          cases w with
          | str s' => exact absurd hy (hns s')
          | num n' => simp only [extractText, hx, hy]
          | bool b' => simp only [extractText, hx, hy]
          | null => simp only [extractText, hx, hy]
          | arr xs => simp only [extractText, hx, hy]
          | obj gs => simp only [extractText, hx, hy]
      | arr xs =>
        cases hy : lookupField fs "result" with
        | none => simp only [extractText, hx, hy]
        | some w =>
          cases w with
          | str s' => exact absurd hy (hns s')
          | num n' => simp only [extractText, hx, hy]
          | bool b' => simp only [extractText, hx, hy]
          | null => simp only [extractText, hx, hy]
          | arr xs' => simp only [extractText, hx, hy]
          | obj gs => simp only [extractText, hx, hy]
      | obj gs =>
        cases hy : lookupField fs "result" with
        | none => simp only [extractText, hx, hy]
        | some w =>
          cases w with
          | str s' => exact absurd hy (hns s')
          | num n' => simp only [extractText, hx, hy]
          | bool b' => simp only [extractText, hx, hy]
          | null => simp only [extractText, hx, hy]
          | arr xs => simp only [extractText, hx, hy]
          | obj gs' => simp only [extractText, hx, hy]

/-- Witness for C4: the spec's round trip (stubbed inference returning
the string `"hello"` yields the frame with `response` `"hello"`), and
the `result`-field fallback at a concrete object. -/
theorem C4_reply_extraction_witness :
    wsOnMessage (.ok (messagesBody [⟨"user", "hi"⟩]))
        (fun _ => Except.ok (Json.str "hello"))
      = responseFrame "hello"
    ∧ extractText (.obj [("result", .str "r")]) = "r" :=
  ⟨(C4_reply_extraction (.ok (messagesBody [⟨"user", "hi"⟩]))
      (fun _ => Except.ok (Json.str "hello"))
      [systemMessageJson, ChatMessage.toJson ⟨"user", "hi"⟩]
      (Json.str "hello")).1 rfl rfl,
   (C4_reply_extraction (.error ()) (fun _ => Except.error ()) [] Json.null).2.2.2.1
      [("result", .str "r")] "r" (fun s' h => by simp [lookupField] at h) rfl⟩

/-- C5: a WebSocket message whose processing throws at any step is
answered with exactly the single apology frame, the server never
closes the socket, and every later inbound message is processed
normally and independently. -/
theorem C5_error_apology (e : Except Unit Json) (es : List (Except Unit Json))
    (ai : List Json → Except Unit Json) (he : wsProcess e ai = Except.error ()) :
    wsSession (e :: es) ai
      = (responseFrame wsApologyText :: es.map (fun e2 => wsOnMessage e2 ai),
         false) := by
  rw [wsSession_eq_map, List.map_cons, wsOnMessage_of_error e ai he]

/-- Witness for C5: the first frame's JSON parse throws, the second
message succeeds against a stub returning `"hello"`. -/
theorem C5_error_apology_witness :
    wsSession [Except.error (), Except.ok (messagesBody [⟨"user", "hi"⟩])]
        (fun _ => Except.ok (Json.str "hello"))
      = (responseFrame wsApologyText :: [responseFrame "hello"], false) :=
  C5_error_apology (Except.error ()) [Except.ok (messagesBody [⟨"user", "hi"⟩])]
    (fun _ => Except.ok (Json.str "hello")) rfl

theorem sendMessage_noop (b : Bool) (st : ClientState)
    (h : jsTrim st.inputValue = "" ∨ st.isProcessing = true ∨ st.socketReady = false) :
    sendMessage b st = (st, []) := by
  simp only [sendMessage]
  rw [if_pos h]

/-- C6 counterexample: a frame whose `response` field exists but holds
the empty string: the field is present, the parse succeeds, yet
nothing is appended to the log or the history, because the client
tests `if (data.response)` — truthiness, not presence. -/
theorem C6_counterexample :
    getProp (Json.obj [("response", Json.str "")]) "response"
      = Except.ok (some (Json.str ""))
    ∧ (onSocketMessage (Except.ok (Json.obj [("response", Json.str "")]))
        initialClientState).chatHistory = initialClientState.chatHistory
    ∧ (onSocketMessage (Except.ok (Json.obj [("response", Json.str "")]))
        initialClientState).chatLog = initialClientState.chatLog :=
  ⟨rfl, rfl, rfl⟩

/-- C6 (amended): on every text frame the client clears the typing
indicator and re-enables the input controls, whatever the parse or the
payload did; a `response` field is appended to the visible log and the
history exactly when its value is truthy (for instance a non-empty
string); in every other case nothing is appended: a falsy value — such
as the empty string —, an absent field (`undefined`), and a thrown
step (a `JSON.parse` failure or a property read on a `null` payload,
where the catch only logs) all leave the log and the history as they
were. -/
theorem C6_receive_contract (data : Except Unit Json) (st : ClientState) :
    (onSocketMessage data st).typingVisible = false
    ∧ (onSocketMessage data st).isProcessing = false
    ∧ (onSocketMessage data st).inputDisabled = false
    ∧ (onSocketMessage data st).sendDisabled = false
    ∧ (∀ v, (data >>= fun d => getProp d "response") = Except.ok (some v) →
        truthy v = true →
        (onSocketMessage data st).chatLog = st.chatLog ++ [("assistant", v)]
        ∧ (onSocketMessage data st).chatHistory
            = st.chatHistory ++ [{ role := "assistant", content := v }])
    ∧ (∀ v, (data >>= fun d => getProp d "response") = Except.ok (some v) →
        truthy v = false →
        (onSocketMessage data st).chatLog = st.chatLog
        ∧ (onSocketMessage data st).chatHistory = st.chatHistory)
    ∧ ((data >>= fun d => getProp d "response") = Except.ok none →
        (onSocketMessage data st).chatLog = st.chatLog
        ∧ (onSocketMessage data st).chatHistory = st.chatHistory)
    ∧ (∀ e, (data >>= fun d => getProp d "response") = Except.error e →
        (onSocketMessage data st).chatLog = st.chatLog
        ∧ (onSocketMessage data st).chatHistory = st.chatHistory) := by
  refine ⟨rfl, rfl, rfl, rfl, ?_, ?_, ?_, ?_⟩
  · intro v hv htr
    unfold onSocketMessage
    rw [hv]
    simp only [htr]
    exact ⟨rfl, rfl⟩
  · intro v hv htr
    unfold onSocketMessage
    rw [hv]
    simp only [htr]
    exact ⟨rfl, rfl⟩
  · intro hv
    unfold onSocketMessage
    rw [hv]
    exact ⟨rfl, rfl⟩
  · intro e hv
    unfold onSocketMessage
    rw [hv]
    exact ⟨rfl, rfl⟩

/-- Witness for C6 (amended), from the initial client state: a
non-empty `response` string is appended; a frame with no `response`
field appends nothing; a frame whose parse threw appends nothing. -/
theorem C6_receive_contract_witness :
    ((onSocketMessage (Except.ok (Json.obj [("response", Json.str "hi")]))
        initialClientState).chatLog = [] ++ [("assistant", Json.str "hi")]
    ∧ (onSocketMessage (Except.ok (Json.obj [("response", Json.str "hi")]))
        initialClientState).chatHistory
      = [greetingMsg] ++ [{ role := "assistant", content := Json.str "hi" }])
    ∧ ((onSocketMessage (Except.ok (Json.obj [])) initialClientState).chatLog
        = initialClientState.chatLog
    ∧ (onSocketMessage (Except.ok (Json.obj [])) initialClientState).chatHistory
        = initialClientState.chatHistory)
    ∧ ((onSocketMessage (Except.error ()) initialClientState).chatLog
        = initialClientState.chatLog
    ∧ (onSocketMessage (Except.error ()) initialClientState).chatHistory
        = initialClientState.chatHistory) :=
  ⟨(C6_receive_contract (Except.ok (Json.obj [("response", Json.str "hi")]))
      initialClientState).2.2.2.2.1 (Json.str "hi") rfl rfl,
   (C6_receive_contract (Except.ok (Json.obj []))
      initialClientState).2.2.2.2.2.2.1 rfl,
   (C6_receive_contract (Except.error ())
      initialClientState).2.2.2.2.2.2.2 () rfl⟩

/-- C7: `sendMessage` is a no-op when the trimmed input is empty, a
send is already in flight, or the socket is not ready; a successful
send transmits exactly one frame and sets the in-flight flag, so a
second call while the reply is pending transmits nothing. -/
theorem C7_single_inflight_send (st : ClientState) (b b2 : Bool) :
    ((jsTrim st.inputValue = "" ∨ st.isProcessing = true ∨ st.socketReady = false) →
      sendMessage b st = (st, []))
    ∧ (jsTrim st.inputValue ≠ "" → st.isProcessing = false → st.socketReady = true →
      (sendMessage true st).2.length = 1
      ∧ (sendMessage true st).1.isProcessing = true
      ∧ (sendMessage b2 (sendMessage true st).1).2 = []) := by
  refine ⟨sendMessage_noop b st, fun h1 h2 h3 => ?_⟩
  have hg : ¬(jsTrim st.inputValue = "" ∨ st.isProcessing = true
      ∨ st.socketReady = false) := by
    simp [h1, h2, h3]
  have hlen : (sendMessage true st).2.length = 1 := by
    simp only [sendMessage]
    rw [if_neg hg]
    rfl
  have hproc : (sendMessage true st).1.isProcessing = true := by
    simp only [sendMessage]
    rw [if_neg hg]
    rfl
  exact ⟨hlen, hproc,
    congrArg Prod.snd (sendMessage_noop b2 _ (Or.inr (Or.inl hproc)))⟩

/-- Witness for C7 at a concrete ready state with input `"hi"`. -/
theorem C7_single_inflight_send_witness :
    (sendMessage true
        { initialClientState with inputValue := "hi", socketReady := true }).2.length = 1
    ∧ (sendMessage true
        { initialClientState with inputValue := "hi", socketReady := true }).1.isProcessing = true
    ∧ (sendMessage true (sendMessage true
        { initialClientState with inputValue := "hi", socketReady := true }).1).2 = [] :=
  (C7_single_inflight_send
    { initialClientState with inputValue := "hi", socketReady := true } true true).2
    (by decide) rfl rfl

/-- C9: when the synchronous `socket.send` throws, the just-pushed user
turn stays in `chatHistory` (no rollback) and the apology bubble goes
only to the visible log, never to the history (every assistant-role
entry of the new history was already there); the next successful send
therefore transmits the failed user turn and no apology entry. -/
theorem C9_send_failure_no_rollback (st : ClientState) (s2 : String)
    (h1 : jsTrim st.inputValue ≠ "") (h2 : st.isProcessing = false)
    (h3 : st.socketReady = true) (h4 : jsTrim s2 ≠ "") :
    (sendMessage false st).2 = []
    ∧ (sendMessage false st).1.chatHistory
        = st.chatHistory ++ [{ role := "user", content := .str (jsTrim st.inputValue) }]
    ∧ (sendMessage false st).1.chatLog
        = st.chatLog ++ [("user", .str (jsTrim st.inputValue)),
            ("assistant", .str wsApologyText)]
    ∧ (∀ m ∈ (sendMessage false st).1.chatHistory, m.role = "assistant" →
        m ∈ st.chatHistory)
    ∧ (sendMessage true { (sendMessage false st).1 with inputValue := s2 }).2
        = [outboundFrame (st.chatHistory
            ++ [{ role := "user", content := .str (jsTrim st.inputValue) },
                { role := "user", content := .str (jsTrim s2) }])] := by
  have hg : ¬(jsTrim st.inputValue = "" ∨ st.isProcessing = true
      ∨ st.socketReady = false) := by
    simp [h1, h2, h3]
  have hfail : sendMessage false st
      = ({ st with
            isProcessing := false, inputDisabled := false, sendDisabled := false,
            chatLog := (st.chatLog ++ [("user", .str (jsTrim st.inputValue))])
              ++ [("assistant", .str wsApologyText)],
            inputValue := "", typingVisible := false,
            chatHistory := st.chatHistory
              ++ [{ role := "user", content := .str (jsTrim st.inputValue) }] },
         []) := by
    simp only [sendMessage]
    rw [if_neg hg]
    rfl
  refine ⟨by rw [hfail], by rw [hfail], ?_, ?_, ?_⟩
  · rw [hfail]
    simp [List.append_assoc]
  · intro m hm hr
    rw [hfail] at hm
    simp only [List.mem_append, List.mem_singleton] at hm
    cases hm with
    | inl h => exact h
    | inr h =>
      rw [h] at hr
      simp at hr
  · rw [hfail]
    simp only [sendMessage]
    rw [if_neg (by simp [h4, h3])]
    simp [outboundFrame, List.append_assoc]

/-- Witness for C9: failed send of `"hi"` from a ready initial state,
then a successful send of `"again"`. -/
theorem C9_send_failure_no_rollback_witness :
    (sendMessage false
        { initialClientState with inputValue := "hi", socketReady := true }).2 = []
    ∧ (sendMessage false
        { initialClientState with inputValue := "hi", socketReady := true }).1.chatHistory
      = [greetingMsg] ++ [{ role := "user", content := .str (jsTrim "hi") }]
    ∧ (sendMessage false
        { initialClientState with inputValue := "hi", socketReady := true }).1.chatLog
      = [] ++ [("user", .str (jsTrim "hi")), ("assistant", .str wsApologyText)]
    ∧ (∀ m ∈ (sendMessage false
        { initialClientState with inputValue := "hi", socketReady := true }).1.chatHistory,
        m.role = "assistant" → m ∈ [greetingMsg])
    ∧ (sendMessage true { (sendMessage false
        { initialClientState with inputValue := "hi", socketReady := true }).1
          with inputValue := "again" }).2
      = [outboundFrame ([greetingMsg]
          ++ [{ role := "user", content := .str (jsTrim "hi") },
              { role := "user", content := .str (jsTrim "again") }])] :=
  C9_send_failure_no_rollback
    { initialClientState with inputValue := "hi", socketReady := true } "again"
    (by decide) rfl rfl (by decide)

theorem clientStep_history (e : ClientEvent) (st : ClientState) :
    ∃ tail, (clientStep e st).1.chatHistory = st.chatHistory ++ tail
      ∧ ∀ m ∈ tail, m.role = "user" ∨ m.role = "assistant" := by
  cases e with
  | socketOpen => exact ⟨[], by simp [clientStep]⟩
  | socketClose => exact ⟨[], by simp [clientStep]⟩
  | setInput s => exact ⟨[], by simp [clientStep]⟩
  | send ok =>
    by_cases hg : (jsTrim st.inputValue = "" ∨ st.isProcessing = true
        ∨ st.socketReady = false)
    · exact ⟨[], by simp [clientStep, sendMessage_noop ok st hg]⟩
    · refine ⟨[{ role := "user", content := .str (jsTrim st.inputValue) }], ?_, ?_⟩
      · show (sendMessage ok st).1.chatHistory = _
        simp only [sendMessage]
        rw [if_neg hg]
        cases ok <;> rfl
      · simp
  | recv data =>
    show ∃ tail, (onSocketMessage data st).chatHistory = st.chatHistory ++ tail ∧ _
    cases hE : (data >>= fun d => getProp d "response") with
    | error e =>
      refine ⟨[], ?_, by simp⟩
      unfold onSocketMessage
      rw [hE]
      simp
    | ok o =>
      cases o with
      | none =>
        refine ⟨[], ?_, by simp⟩
        unfold onSocketMessage
        rw [hE]
        simp
      | some v =>
        by_cases ht : truthy v = true
        · refine ⟨[{ role := "assistant", content := v }], ?_, by simp⟩
          unfold onSocketMessage
          rw [hE]
          simp [ht]
        · refine ⟨[], ?_, by simp⟩
          unfold onSocketMessage
          rw [hE]
          simp [Bool.eq_false_iff.mpr ht]

theorem clientStep_frames (e : ClientEvent) (st : ClientState) (f : Json)
    (hf : f ∈ (clientStep e st).2) :
    f = outboundFrame (clientStep e st).1.chatHistory := by
  cases e with
  | socketOpen => simp [clientStep] at hf
  | socketClose => simp [clientStep] at hf
  | setInput s => simp [clientStep] at hf
  | recv d => simp [clientStep] at hf
  | send ok =>
    by_cases hg : (jsTrim st.inputValue = "" ∨ st.isProcessing = true
        ∨ st.socketReady = false)
    · rw [show clientStep (ClientEvent.send ok) st = (st, []) from sendMessage_noop ok st hg] at hf
      simp at hf
    · cases ok with
      | true =>
        show f = outboundFrame (sendMessage true st).1.chatHistory
        have : sendMessage true st
            = ({ st with
                isProcessing := true, inputDisabled := true, sendDisabled := true,
                chatLog := st.chatLog ++ [("user", .str (jsTrim st.inputValue))],
                inputValue := "", typingVisible := true,
                chatHistory := st.chatHistory
                  ++ [{ role := "user", content := .str (jsTrim st.inputValue) }] },
              [outboundFrame (st.chatHistory
                ++ [{ role := "user", content := .str (jsTrim st.inputValue) }])]) := by
          simp only [sendMessage]
          rw [if_neg hg]
          rfl
        rw [this]
        rw [show (clientStep (ClientEvent.send true) st).2 = (sendMessage true st).2 from rfl, this] at hf
        simp at hf
        exact hf
      | false =>
        rw [show (clientStep (ClientEvent.send false) st).2 = (sendMessage false st).2 from rfl] at hf
        have : (sendMessage false st).2 = [] := by
          simp only [sendMessage]
          rw [if_neg hg]
          rfl
        rw [this] at hf
        simp at hf

theorem historyWellFormed_append (h tail : List HistMsg)
    (hw : historyWellFormed h)
    (ht : ∀ m ∈ tail, m.role = "user" ∨ m.role = "assistant") :
    historyWellFormed (h ++ tail) := by
  obtain ⟨hne, hhd, hsys⟩ := hw
  cases h with
  | nil => exact absurd rfl hne
  | cons a as =>
    refine ⟨by simp, by simpa using hhd, ?_⟩
    intro m hm
    rw [List.mem_append] at hm
    cases hm with
    | inl h1 => exact hsys m h1
    | inr h2 =>
      cases ht m h2 with
      | inl hu => rw [hu]; decide
      | inr ha => rw [ha]; decide

theorem clientRunFrom_inv (events : List ClientEvent) (st : ClientState)
    (hw : historyWellFormed st.chatHistory) :
    historyWellFormed (clientRunFrom st events).1.chatHistory
    ∧ ∀ f ∈ (clientRunFrom st events).2,
        ∃ h, historyWellFormed h ∧ f = outboundFrame h := by
  induction events generalizing st with
  | nil => exact ⟨hw, by simp [clientRunFrom]⟩
  | cons e es ih =>
    obtain ⟨tail, hht, hroles⟩ := clientStep_history e st
    have hw1 : historyWellFormed (clientStep e st).1.chatHistory := by
      rw [hht]
      exact historyWellFormed_append _ _ hw hroles
    obtain ⟨ha, hb⟩ := ih (clientStep e st).1 hw1
    refine ⟨ha, ?_⟩
    intro f hf
    rw [show (clientRunFrom st (e :: es)).2
        = (clientStep e st).2 ++ (clientRunFrom (clientStep e st).1 es).2 from rfl,
      List.mem_append] at hf
    cases hf with
    | inl h1 => exact ⟨(clientStep e st).1.chatHistory, hw1, clientStep_frames e st f h1⟩
    | inr h2 => exact hb f h2

/-- C10: the client's conversation history starts as the single fixed
assistant greeting; every event only appends user- or assistant-role
entries to it (no trimming, no reordering, no system-role insertion);
hence after any event sequence the history is non-empty with the
greeting at index 0, and every outbound frame the client ever
transmits carries such a history as its `messages` array. -/
theorem C10_history_invariant (events : List ClientEvent) :
    initialClientState.chatHistory = [greetingMsg]
    ∧ (∀ e st, ∃ tail, (clientStep e st).1.chatHistory = st.chatHistory ++ tail
        ∧ ∀ m ∈ tail, m.role = "user" ∨ m.role = "assistant")
    ∧ historyWellFormed (clientRun events).1.chatHistory
    ∧ ∀ f ∈ (clientRun events).2,
        ∃ h, historyWellFormed h ∧ f = outboundFrame h := by
  have hinit : historyWellFormed initialClientState.chatHistory := by
    refine ⟨by simp [initialClientState], rfl, ?_⟩
    intro m hm
    rw [show initialClientState.chatHistory = [greetingMsg] from rfl] at hm
    rw [List.mem_singleton] at hm
    rw [hm]
    decide
  obtain ⟨ha, hb⟩ := clientRunFrom_inv events initialClientState hinit
  exact ⟨rfl, clientStep_history, ha, hb⟩

/-- Witness for C10 at a concrete session: socket opens, the user types
`"hi"` and sends it; the one transmitted frame carries a well-formed
history. -/
theorem C10_history_invariant_witness :
    ∃ h, historyWellFormed h
      ∧ outboundFrame [greetingMsg, { role := "user", content := Json.str "hi" }]
          = outboundFrame h :=
  (C10_history_invariant [ClientEvent.socketOpen, ClientEvent.setInput "hi",
      ClientEvent.send true]).2.2.2
    (outboundFrame [greetingMsg, { role := "user", content := Json.str "hi" }])
    (List.mem_singleton.mpr rfl)
